import Mathlib

/-!
Shallow embedding of `fallback_storage/storage.py` from django-fallback-storage.

Backends are external collaborators: each backend is modelled as a record of
optional methods (`hasattr` = the field is `some _`), and invoking a method is
an oracle returning either a value or a raised exception.  The facade code of
`storage.py` is embedded faithfully over these oracles, including its use of a
Python dict (insertion-ordered, keyed by backend identifier) to record
failures, and the literal subscript `exceptions[0]` which looks the integer
key `0` up in that dict.
-/

/-- File contents, modelling the byte strings held by storage backends. -/
abbrev Content := String

/-- A Python exception value: its class name and the result of `str(e)`. -/
structure Exc where
  ty : String
  msg : String
deriving DecidableEq

/-- A Python dict key.  Backend identifiers are strings (dotted class paths fed
to `get_storage_class`), but the literal `exceptions[0]` subscripts with the
integer `0`. -/
inductive PyKey where
  | int (n : Int)
  | str (s : String)
deriving DecidableEq

/-- `str` of a dict key as it would appear in a formatted message. -/
def PyKey.toStr : PyKey → String
  | .int n => toString n
  | .str s => s

/-- A Python dict from keys to exceptions, in insertion order (3.7+ semantics). -/
abbrev PyDict := List (PyKey × Exc)

/-- `d[k] = v`: updating an existing key keeps its position and replaces the
value; a new key is appended. -/
def dictSet (d : PyDict) (k : PyKey) (v : Exc) : PyDict :=
  if d.any (fun p => p.1 == k) then d.map (fun p => if p.1 == k then (k, v) else p)
  else d ++ [(k, v)]

/-- `d[k]` lookup, `none` when the key is absent (Python raises `KeyError`). -/
def dictGet (d : PyDict) (k : PyKey) : Option Exc :=
  (d.find? (fun p => p.1 == k)).map Prod.snd

/-- storage.py lines 14-17, `concatenate_exceptions`.  The source unpacks
`for e, b in exceptions.items()`, so `e` is bound to the backend identifier
(the dict key) and `b` to the exception (the value); the formatted line
`"{0}: {1}".format(b, e)` is therefore `str(exception): identifier`. -/
def concatenate_exceptions (exceptions : PyDict) : String :=
  String.intercalate "\n" (exceptions.map (fun ⟨e, b⟩ => b.msg ++ ": " ++ e.toStr))

/-- Outcome of invoking one backend method with the call's arguments. -/
inductive Outcome (α : Type) where
  | returns (v : α)
  | raises (e : Exc)
deriving DecidableEq

/-- What a dispatched facade call does: return a value, or let some exception
escape to the caller.  The error constructors record which Python exception
escapes. -/
inductive DispatchResult (α : Type) where
  | ok (v : α)
  | raised (e : Exc)
  | keyError
  | aggregate (msg : String)
  | attributeError (msg : String)
  | indexError
deriving DecidableEq

/-- storage.py lines 35-38 (and the four other copies of the same shape):
`if len(exceptions) == 1: raise exceptions[0]` else
`raise Exception(concatenate_exceptions(exceptions))`.  `exceptions[0]`
subscripts the dict with the integer key `0`: when that key is absent (backend
identifiers are strings), the lookup itself raises `KeyError: 0`. -/
def raise_from_exceptions {α : Type} (exceptions : PyDict) : DispatchResult α :=
  if exceptions.length = 1 then
    match dictGet exceptions (.int 0) with
    | some e => .raised e
    | none => .keyError
  else .aggregate (concatenate_exceptions exceptions)

/-- storage.py lines 25-42: the loop body of the method built by
`fallback_method`.  The list holds, for each backend exposing the method (in
configuration order), its identifier and the outcome of invoking the bound
method with the call's arguments. -/
def fallback_method_loop {α : Type} (method_name : String) :
    List (String × Outcome α) → PyDict → DispatchResult α
  | [], exceptions =>
      if exceptions ≠ [] then raise_from_exceptions exceptions
      else .attributeError ("No backend has the method `" ++ method_name ++ "`")
  | (backend_class, o) :: rest, exceptions =>
      match o with
      | .returns v => .ok v
      | .raises e => fallback_method_loop method_name rest (dictSet exceptions (.str backend_class) e)

/-- storage.py lines 20-44: `fallback_method(method_name)` applied to the
backends exposing the method. -/
def fallback_method {α : Type} (method_name : String)
    (backend_methods : List (String × Outcome α)) : DispatchResult α :=
  fallback_method_loop method_name backend_methods []

/-- storage.py lines 89-106: the loop of `FallbackStorage.exists`. -/
def exists_loop : List (String × Outcome Bool) → PyDict → DispatchResult Bool
  | [], exceptions =>
      if exceptions ≠ [] then raise_from_exceptions exceptions else .ok false
  | (backend_class, o) :: rest, exceptions =>
      match o with
      | .returns result => if result then .ok true else exists_loop rest exceptions
      | .raises e => exists_loop rest (dictSet exceptions (.str backend_class) e)

/-- storage.py lines 89-106: `FallbackStorage.exists` over the outcomes of the
backends exposing `exists`. -/
def exists_dispatch (backend_methods : List (String × Outcome Bool)) : DispatchResult Bool :=
  exists_loop backend_methods []

/-- Python `any` over a list of names: true when some element is truthy, i.e.
a non-empty string. -/
def pyAny (l : List String) : Bool := l.any (fun s => s != "")

/-- storage.py lines 122-129: the branch structure after the `listdir` scan,
kept literally, including the final (dead) `else: raise AttributeError` arm. -/
def listdir_end (exceptions : PyDict) (directories files : List String) :
    DispatchResult (List String × List String) :=
  if (pyAny directories || pyAny files) || exceptions = [] then .ok (directories, files)
  else if exceptions ≠ [] then raise_from_exceptions exceptions
  else .attributeError "No backend found with the method `listdir`"

/-- storage.py lines 113-120: the `listdir` scan, extending the accumulated
directory and file lists on success and recording failures. -/
def listdir_loop : List (String × Outcome (List String × List String)) → PyDict →
    List String → List String → DispatchResult (List String × List String)
  | [], exceptions, directories, files => listdir_end exceptions directories files
  | (backend_class, o) :: rest, exceptions, directories, files =>
      match o with
      | .returns dl => listdir_loop rest exceptions (directories ++ dl.1) (files ++ dl.2)
      | .raises e => listdir_loop rest (dictSet exceptions (.str backend_class) e) directories files

/-- storage.py lines 108-129: `FallbackStorage.listdir` over the outcomes of
the backends exposing `listdir`. -/
def listdir_dispatch (backend_methods : List (String × Outcome (List String × List String))) :
    DispatchResult (List String × List String) :=
  listdir_loop backend_methods [] [] []

/-- In-memory model of a file object: its full contents and the optional name
attached to it.  `read()` on such an object yields `content`. -/
structure FileObj where
  content : Content
  fname : Option String
deriving DecidableEq

/-- `django.core.files.base.ContentFile(content, name=name)`. -/
def ContentFile (content : Content) (name : String) : FileObj :=
  ⟨content, some name⟩

/-- `io.BytesIO(content)` (no attached name). -/
def BytesIo (content : Content) : FileObj :=
  ⟨content, none⟩

/-- A storage backend as the facade sees it: every optional field is a method
the backend may or may not expose (`hasattr` tests the field for `some`), and
invoking an exposed method yields an outcome.  An `open` call returning `none`
models a falsy result (file not found); `open` takes the name and the mode. -/
structure Backend where
  open_ : Option (String → String → Outcome (Option FileObj))
  save : Option (String → FileObj → Outcome String)
  exists_ : Option (String → Outcome Bool)
  url : Option (String → Outcome String)
  listdir : Option (String → Outcome (List String × List String))

/-- A backend exposing no method at all. -/
def emptyBackend : Backend :=
  ⟨none, none, none, none, none⟩

/-- The Django settings the constructor consults: `FALLBACK_STORAGES` (absent
or a list) and `FALLBACK_DATA_MIGRATION` (absent or a boolean). -/
structure Settings where
  FALLBACK_STORAGES : Option (List String)
  FALLBACK_DATA_MIGRATION : Option Bool

/-- storage.py lines 47-57: the state of a constructed `FallbackStorage`.
`resolve` models `get_storage_class(backend_class)()`, instantiating a backend
from its identifier. -/
structure FallbackStorage where
  resolve : String → Backend
  backend_classes : List String
  in_data_migration : Bool

/-- storage.py lines 54-55: the message of the `ImproperlyConfigured` error. -/
def initErrMsg : String :=
  "The setting `FALLBACK_STORAGES` is either missing or empty"

/-- Result of running the constructor. -/
inductive InitResult where
  | ok (s : FallbackStorage)
  | improperlyConfigured (msg : String)

/-- Whether construction succeeded. -/
def InitResult.isOk : InitResult → Bool
  | .ok _ => true
  | .improperlyConfigured _ => false

/-- storage.py lines 48-57: `FallbackStorage.__init__`.  When `backends` is
`None` the constructor asserts that `settings.FALLBACK_STORAGES` is truthy; a
missing attribute (`AttributeError`) or a falsy value (`AssertionError`) both
become `ImproperlyConfigured`.  A supplied `backends` value skips the check.
`in_data_migration` is `getattr(settings, "FALLBACK_DATA_MIGRATION", False)`. -/
def FallbackStorage.init (settings : Settings) (resolve : String → Backend)
    (backends : Option (List String)) : InitResult :=
  match backends with
  | none =>
      match settings.FALLBACK_STORAGES with
      | none => .improperlyConfigured initErrMsg
      | some l =>
          if l = [] then .improperlyConfigured initErrMsg
          else .ok ⟨resolve, l, settings.FALLBACK_DATA_MIGRATION.getD false⟩
  | some l => .ok ⟨resolve, l, settings.FALLBACK_DATA_MIGRATION.getD false⟩

/-- storage.py lines 59-62: `get_backends`, yielding `(identifier, instance)`
pairs in configured order. -/
def FallbackStorage.get_backends (s : FallbackStorage) : List (String × Backend) :=
  s.backend_classes.map (fun backend_class => (backend_class, s.resolve backend_class))

/-- storage.py lines 64-66: `get_primary_backend` is `next(self.get_backends())`;
`none` models the `StopIteration` raised on an empty backend list. -/
def FallbackStorage.get_primary_backend (s : FallbackStorage) : Option Backend :=
  s.get_backends.head?.map Prod.snd

/-- storage.py lines 68-71 specialised to `open`: the backends exposing `open`
with their bound methods, in order. -/
def FallbackStorage.get_backend_open_methods (s : FallbackStorage) :
    List (String × (String → String → Outcome (Option FileObj))) :=
  s.get_backends.filterMap (fun p => p.2.open_.map (fun f => (p.1, f)))

/-- storage.py lines 68-71 specialised to `exists`, with the call's argument
already applied (each bound method is invoked once with the same `name`). -/
def FallbackStorage.get_backend_exists_calls (s : FallbackStorage) (name : String) :
    List (String × Outcome Bool) :=
  s.get_backends.filterMap (fun p => p.2.exists_.map (fun f => (p.1, f name)))

/-- storage.py lines 68-71 specialised to `url`, with the argument applied. -/
def FallbackStorage.get_backend_url_calls (s : FallbackStorage) (name : String) :
    List (String × Outcome String) :=
  s.get_backends.filterMap (fun p => p.2.url.map (fun f => (p.1, f name)))

/-- storage.py lines 68-71 specialised to `listdir`, with the argument applied. -/
def FallbackStorage.get_backend_listdir_calls (s : FallbackStorage) (path : String) :
    List (String × Outcome (List String × List String)) :=
  s.get_backends.filterMap (fun p => p.2.listdir.map (fun f => (p.1, f path)))

/-- storage.py lines 89-106: `FallbackStorage.exists` at the facade level. -/
def FallbackStorage.facade_exists (s : FallbackStorage) (name : String) : DispatchResult Bool :=
  exists_dispatch (s.get_backend_exists_calls name)

/-- storage.py lines 108-129: `FallbackStorage.listdir` at the facade level. -/
def FallbackStorage.facade_listdir (s : FallbackStorage) (path : String) :
    DispatchResult (List String × List String) :=
  listdir_dispatch (s.get_backend_listdir_calls path)

/-- Result of the non-migration `url` scan: a return or uncaught exception
inside the loop, or exhaustion with the recorded failures. -/
inductive UrlScan where
  | found (r : DispatchResult String)
  | exhausted (exceptions : PyDict)

/-- storage.py lines 137-147: the non-migration `url` scan.  A backend lacking
`url` or `exists` is skipped.  `backend.exists(name)` is invoked OUTSIDE any
try block, so an exception it raises propagates out of `url` at once; only the
`backend.url(name)` call is guarded, its failures being recorded. -/
def url_scan (name : String) : List (String × Backend) → PyDict → UrlScan
  | [], exceptions => .exhausted exceptions
  | (backend_class, backend) :: rest, exceptions =>
      match backend.url, backend.exists_ with
      | some urlFn, some existsFn =>
          match existsFn name with
          | .raises e => .found (.raised e)
          | .returns b =>
              if b then
                match urlFn name with
                | .returns u => .found (.ok u)
                | .raises e => url_scan name rest (dictSet exceptions (.str backend_class) e)
              else url_scan name rest exceptions
      | _, _ => url_scan name rest exceptions

/-- storage.py line 157: the message of the converted `AttributeError`. -/
def noUrlBackendMsg : String := "No backend found with the method `url`"

/-- storage.py lines 131-157: `FallbackStorage.url`.  In migration mode it
delegates to the generic fallback dispatch over the backends exposing `url`.
Otherwise it runs the existence-gated scan; after exhaustion it applies the
single/aggregate rule to the recorded failures, and with none recorded it
instantiates the LAST configured backend (`self.backend_classes[-1]`, an
`IndexError` on an empty list) and calls its `url`, converting (only) an
`AttributeError` - from the missing attribute or from the call itself - into
the `No backend found with the method url` error. -/
def FallbackStorage.facade_url (s : FallbackStorage) (name : String) : DispatchResult String :=
  if s.in_data_migration then fallback_method "url" (s.get_backend_url_calls name)
  else
    match url_scan name s.get_backends [] with
    | .found r => r
    | .exhausted exceptions =>
        if exceptions ≠ [] then raise_from_exceptions exceptions
        else
          match s.backend_classes.getLast? with
          | none => .indexError
          | some last_class =>
              match (s.resolve last_class).url with
              | none => .attributeError noUrlBackendMsg
              | some urlFn =>
                  match urlFn name with
                  | .returns u => .ok u
                  | .raises e =>
                      if e.ty = "AttributeError" then .attributeError noUrlBackendMsg
                      else .raised e

/-- storage.py lines 212-213: the log message of `__save_to_primary_backend`. -/
def saveFailureLog (name : String) : String :=
  "Unable to save file into the primary backend when fetched from other backend. Name='"
    ++ name ++ "'"

/-- storage.py lines 185-187: the log message of the second-fetch except arm. -/
def secondFetchLog (mode name : String) : String :=
  "Unable to save file into the primary backend when fetched from other backend. Mode='"
    ++ mode ++ "', name='" ++ name ++ "'"

/-- storage.py lines 202-213: `__save_to_primary_backend`.  Returns the stored
name (or `none` after a caught failure) together with the log messages
emitted.  Every failure inside - no primary backend (`StopIteration`), a
primary without a `save` attribute (`AttributeError`), or the save call
raising - is caught and only logged. -/
def FallbackStorage.save_to_primary_backend (s : FallbackStorage) (name : String)
    (file_obj : FileObj) : Option String × List String :=
  match s.get_primary_backend with
  | none => (none, [saveFailureLog name])
  | some backend =>
      match backend.save with
      | none => (none, [saveFailureLog name])
      | some saveFn =>
          match saveFn name file_obj with
          | .returns stored => (some stored, [])
          | .raises _ => (none, [saveFailureLog name])

/-- The value and side effects of one facade `open` call: the dispatch result,
every `__save_to_primary_backend(name, file_obj)` invocation made during the
call (in order, with its arguments), and the log messages emitted. -/
structure OpenOutcome where
  result : DispatchResult (Option FileObj)
  primary_save_calls : List (String × FileObj)
  logs : List String
deriving DecidableEq

/-- storage.py lines 161-198: the migration-mode scan inside
`FallbackStorage.open`.  `i` is the 0-based position among the backends
exposing `open` (from `enumerate`).  A falsy result leaves `result` bound and
continues; the first truthy result returns.  When `i > 0` and the mode is a
plain binary read, the content is read, rewrapped as a `ContentFile`, and a
`BytesIO` copy is passed to `__save_to_primary_backend`; for other modes the
backend method is invoked a second time with its default mode (`rb`) to fetch
the bytes for promotion, any exception there being caught and logged, and the
ORIGINAL handle is returned. -/
def open_migration_loop (s : FallbackStorage) (name mode : String) :
    List (String × (String → String → Outcome (Option FileObj))) → Nat → PyDict → OpenOutcome
  | [], _, exceptions =>
      if exceptions ≠ [] then ⟨raise_from_exceptions exceptions, [], []⟩
      else ⟨.ok none, [], []⟩
  | (backend_class, backend_method) :: rest, i, exceptions =>
      match backend_method name mode with
      | .raises e =>
          open_migration_loop s name mode rest (i + 1) (dictSet exceptions (.str backend_class) e)
      | .returns none =>
          open_migration_loop s name mode rest (i + 1) exceptions
      | .returns (some result) =>
          if s.in_data_migration ∧ 0 < i then
            if mode = "rb" ∨ mode = "br" then
              ⟨.ok (some (ContentFile result.content name)),
               [(name, BytesIo result.content)],
               (s.save_to_primary_backend name (BytesIo result.content)).2⟩
            else
              match backend_method name "rb" with
              | .raises _ => ⟨.ok (some result), [], [secondFetchLog mode name]⟩
              | .returns (some second_result) =>
                  ⟨.ok (some result), [(name, second_result)],
                   (s.save_to_primary_backend name second_result).2⟩
              | .returns none => ⟨.ok (some result), [], []⟩
          else ⟨.ok (some result), [], []⟩

/-- storage.py lines 159-200: `FallbackStorage.open`.  In migration mode it
runs the promotion-aware scan; otherwise it is the generic fallback dispatch
over the backends exposing `open` (which returns the first result, truthy or
not, and performs no saves and no logging). -/
def FallbackStorage.facade_open (s : FallbackStorage) (name : String) (mode : String) :
    OpenOutcome :=
  if s.in_data_migration then
    open_migration_loop s name mode s.get_backend_open_methods 0 []
  else
    ⟨fallback_method "open" (s.get_backend_open_methods.map (fun p => (p.1, p.2 name mode))),
     [], []⟩

/-! Concrete backend configurations used to evaluate the embedding at
specific inputs (mirroring the scenarios of the repository's test suite). -/

/-- A primary whose `open` finds nothing and whose `save` succeeds. -/
def wB0open : String → String → Outcome (Option FileObj) := fun _ _ => .returns none

/-- A secondary whose `open` finds the file `foo.txt` with content `test-foo`. -/
def wB1open : String → String → Outcome (Option FileObj) :=
  fun _ _ => .returns (some ⟨"test-foo", some "foo.txt"⟩)

/-- The primary backend of the migration scenario: empty, but able to save. -/
def wB0 : Backend := ⟨some wB0open, some (fun n _ => .returns n), none, none, none⟩

/-- The secondary backend of the migration scenario. -/
def wB1 : Backend := ⟨some wB1open, none, none, none, none⟩

/-- Two-backend facade with migration mode on: `b0` empty primary, `b1` holds
`foo.txt`. -/
def wStore : FallbackStorage :=
  ⟨fun c => if c = "b0" then wB0 else wB1, ["b0", "b1"], true⟩

/-- A backend exposing `url` and an `exists` that raises `OSError: boom`. -/
def c6B0 : Backend :=
  ⟨none, none, some (fun _ => .raises ⟨"OSError", "boom"⟩), some (fun _ => .returns "u0"), none⟩

/-- A healthy backend whose `exists` returns true and whose `url` is `u1`. -/
def c6B1 : Backend :=
  ⟨none, none, some (fun _ => .returns true), some (fun _ => .returns "u1"), none⟩

/-- Two-backend facade, migration off: `b0`'s `exists` raises, `b1` is healthy. -/
def c6Store : FallbackStorage :=
  ⟨fun c => if c = "b0" then c6B0 else c6B1, ["b0", "b1"], false⟩

/-- Three-backend facade, migration off: a first backend without `url`, then
the raising backend, then a healthy one. -/
def c6StoreW : FallbackStorage :=
  ⟨fun c => if c = "p0" then emptyBackend else if c = "b0" then c6B0 else c6B1,
   ["p0", "b0", "b1"], false⟩

/-- A `url` method raising a non-AttributeError exception. -/
def c10Url : String → Outcome String := fun _ => .raises ⟨"ValueError", "boom"⟩

/-- A backend exposing only `url` (no `exists`, so the scan skips it). -/
def c10B : Backend := ⟨none, none, none, some c10Url, none⟩

/-- One-backend facade, migration off, whose only backend is `c10B`. -/
def c10Store : FallbackStorage := ⟨fun _ => c10B, ["b0"], false⟩

/-- A backend exposing `exists` but not `listdir`. -/
def c5B : Backend := ⟨none, none, some (fun _ => .returns false), none, none⟩

/-- One-backend facade in which no backend supports `listdir`. -/
def c5Store : FallbackStorage := ⟨fun _ => c5B, ["b0"], false⟩

/-! Helper lemmas shared by the claim theorems. -/

/-- Recording a failure never leaves the exceptions dict empty. -/
theorem dictSet_ne_nil (d : PyDict) (k : PyKey) (v : Exc) : dictSet d k v ≠ [] := by
  unfold dictSet
  split
  next h =>
    cases d with
    | nil => simp at h
    | cons a l => simp
  next => simp

/-- The single/aggregate raise always raises: it never returns a value. -/
theorem raise_from_exceptions_ne_ok {α : Type} (exceptions : PyDict) (v : α) :
    raise_from_exceptions exceptions ≠ DispatchResult.ok v := by
  unfold raise_from_exceptions
  split
  · cases dictGet exceptions (.int 0) <;> simp
  · simp

/-! Claim theorems. -/

/-- C1: the claim says that when every consulted backend raises and exactly one
backend was consulted, the dispatch propagates that backend's original failure
unchanged.  The code instead evaluates `exceptions[0]` on a dict keyed by the
backend identifier string, so the subscript itself raises `KeyError: 0`: with
a single consulted backend raising `ValueError: boom`, both the generic
fallback dispatch and the `exists` dispatch let `KeyError` escape, not the
original `ValueError`. -/
theorem fallback_single_failure_keyerror :
    fallback_method "size" [("b0", Outcome.raises ⟨"ValueError", "boom"⟩)]
        = (DispatchResult.keyError : DispatchResult Nat) ∧
      exists_dispatch [("b0", Outcome.raises ⟨"ValueError", "boom"⟩)]
        = DispatchResult.keyError := by
  exact ⟨rfl, rfl⟩

/-- C3: the claim says each aggregate line is `identifier: error`.  Because
`concatenate_exceptions` unpacks `for e, b in exceptions.items()` (binding `e`
to the key and `b` to the value) and formats `"{0}: {1}".format(b, e)`, each
line actually reads `error: identifier`: two failing backends `b0`, `b1` with
errors `e0`, `e1` produce the message `e0: b0\ne1: b1`, in consultation
order. -/
theorem aggregate_message_swaps_identifier_and_error :
    fallback_method "size"
        [("b0", Outcome.raises ⟨"ValueError", "e0"⟩), ("b1", Outcome.raises ⟨"TypeError", "e1"⟩)]
      = (DispatchResult.aggregate "e0: b0\ne1: b1" : DispatchResult Nat) := by
  rfl

/-- C4 counterexample: the claim says construction fails with a configuration
error when the supplied list itself is empty, but `__init__` only validates
the settings path: passing `backends=[]` skips the check and construction
succeeds. -/
theorem init_accepts_supplied_empty_list :
    (FallbackStorage.init ⟨none, none⟩ (fun _ => emptyBackend) (some [])).isOk = true := by
  rfl

/-- C4 amended: construction succeeds for every supplied backend list
(including an empty one) and fails with `ImproperlyConfigured` exactly when no
list is supplied and the configured `FALLBACK_STORAGES` is absent or empty. -/
theorem init_success_characterisation (settings : Settings) (resolve : String → Backend)
    (backends : Option (List String)) :
    (FallbackStorage.init settings resolve backends).isOk = true
      ↔ (backends ≠ none ∨ ∃ l, settings.FALLBACK_STORAGES = some l ∧ l ≠ []) := by
  unfold FallbackStorage.init
  cases backends with
  | none =>
      cases h : settings.FALLBACK_STORAGES with
      | none => simp [h, InitResult.isOk]
      | some l =>
          by_cases hl : l = [] <;> simp [h, hl, InitResult.isOk]
  | some l => simp [InitResult.isOk]

/-- C5: the claim says a `listdir` call with no supporting backend fails with
a capability error.  The scan over zero backends records zero failures, so the
`or not exceptions` arm returns before the (unreachable) `AttributeError`
raise: the facade returns the empty pair `([], [])` instead of failing. -/
theorem listdir_no_capability_returns_empty :
    c5Store.facade_listdir "" = DispatchResult.ok ([], []) := by
  rfl

/-- C7: Policy A first-success-wins.  For any consulted prefix of backends
that all raise, followed by a backend whose invocation returns `v`, the
generic fallback dispatch returns `v`: the tail after the first success is
universally quantified (those backends are never examined) and the recorded
prefix failures are not surfaced. -/
theorem fallback_first_success_wins {α : Type} (method_name : String)
    (pre : List (String × Exc)) (b : String) (v : α) (rest : List (String × Outcome α)) :
    fallback_method method_name
        (pre.map (fun p => (p.1, Outcome.raises p.2)) ++ (b, Outcome.returns v) :: rest)
      = DispatchResult.ok v := by
  show fallback_method_loop method_name _ [] = _
  generalize [] = exceptions
  induction pre generalizing exceptions with
  | nil => rfl
  | cons hd tl ih =>
      simp only [List.map_cons, List.cons_append, fallback_method_loop]
      exact ih _

/-- The `exists` scan returns true exactly when some consulted backend
returned true, whatever failures were recorded along the way. -/
theorem exists_loop_eq_ok_true (calls : List (String × Outcome Bool)) :
    ∀ exceptions : PyDict,
      exists_loop calls exceptions = DispatchResult.ok true
        ↔ ∃ p ∈ calls, p.2 = Outcome.returns true := by
  induction calls with
  | nil =>
      intro exceptions
      refine iff_of_false ?_ (by simp)
      unfold exists_loop
      split
      · exact raise_from_exceptions_ne_ok exceptions true
      · simp
  | cons hd tl ih =>
      intro exceptions
      obtain ⟨bc, o⟩ := hd
      cases o with
      | returns b =>
          cases b
          · simpa [exists_loop] using ih exceptions
          · simp [exists_loop]
      | raises e =>
          simpa [exists_loop] using ih (dictSet exceptions (.str bc) e)

/-- The `exists` scan returns false exactly when the incoming dict is empty
and every consulted backend returned false. -/
theorem exists_loop_eq_ok_false (calls : List (String × Outcome Bool)) :
    ∀ exceptions : PyDict,
      exists_loop calls exceptions = DispatchResult.ok false
        ↔ (exceptions = [] ∧ ∀ p ∈ calls, p.2 = Outcome.returns false) := by
  induction calls with
  | nil =>
      intro exceptions
      cases exceptions with
      | nil => simp [exists_loop]
      | cons a d =>
          refine iff_of_false ?_ (by simp)
          unfold exists_loop
          split
          · exact raise_from_exceptions_ne_ok _ false
          next h => simp at h
  | cons hd tl ih =>
      intro exceptions
      obtain ⟨bc, o⟩ := hd
      cases o with
      | returns b =>
          cases b
          · simpa [exists_loop] using ih exceptions
          · simp [exists_loop]
      | raises e =>
          rw [show exists_loop ((bc, Outcome.raises e) :: tl) exceptions
                = exists_loop tl (dictSet exceptions (.str bc) e) from rfl, ih]
          simp [dictSet_ne_nil]

/-- C8: `exists(name)` is true exactly when some backend supporting `exists`
returns true (failures recorded from earlier backends notwithstanding), and
false exactly when every backend supporting `exists` returns false with no
exceptions recorded - vacuously including the case where no backend supports
`exists` at all. -/
theorem exists_characterisation (s : FallbackStorage) (name : String) :
    (s.facade_exists name = DispatchResult.ok true
        ↔ ∃ p ∈ s.get_backend_exists_calls name, p.2 = Outcome.returns true) ∧
      (s.facade_exists name = DispatchResult.ok false
        ↔ ∀ p ∈ s.get_backend_exists_calls name, p.2 = Outcome.returns false) := by
  constructor
  · exact exists_loop_eq_ok_true _ []
  · rw [FallbackStorage.facade_exists, exists_dispatch, exists_loop_eq_ok_false]
    simp

/-- C9: failures are recorded in a dict keyed by backend identifier, so with a
duplicated identifier only the most recent failure per identifier is retained
(`e2`, not `e1`, and at the first-insertion position), and the single/
aggregate decision compares the number of DISTINCT failing identifiers with 1:
two consulted backends sharing one identifier take the single-failure branch
(`exceptions[0]`, hence `KeyError`), and three consulted backends with two
identifiers raise the aggregate of the two retained failures. -/
theorem duplicate_identifier_failures (method_name b c : String) (e1 e2 e3 : Exc)
    (hbc : b ≠ c) :
    (fallback_method method_name [(b, Outcome.raises e1), (b, Outcome.raises e2)]
        = (DispatchResult.keyError : DispatchResult Nat)) ∧
      (fallback_method method_name
          [(b, Outcome.raises e1), (b, Outcome.raises e2), (c, Outcome.raises e3)]
        = (DispatchResult.aggregate
            (concatenate_exceptions [(.str b, e2), (.str c, e3)]) : DispatchResult Nat)) := by
  have hset1 : dictSet [] (PyKey.str b) e1 = [(PyKey.str b, e1)] := by
    simp [dictSet]
  have hset2 : dictSet [(PyKey.str b, e1)] (PyKey.str b) e2 = [(PyKey.str b, e2)] := by
    simp [dictSet]
  have hset3 : dictSet [(PyKey.str b, e2)] (PyKey.str c) e3
      = [(PyKey.str b, e2), (PyKey.str c, e3)] := by
    simp [dictSet, hbc]
  have hk : (PyKey.str b == PyKey.int 0) = false := by
    simp [beq_eq_false_iff_ne]
  constructor
  · show fallback_method_loop _ _ [] = _
    simp only [fallback_method_loop, hset1, hset2]
    simp [raise_from_exceptions, dictGet, List.find?, hk]
  · show fallback_method_loop _ _ [] = _
    simp only [fallback_method_loop, hset1, hset2, hset3]
    simp [raise_from_exceptions]

/-- C9 witness: concrete duplicated identifiers. -/
theorem duplicate_identifier_failures_witness :
    (fallback_method "size" [("b0", Outcome.raises ⟨"E1", "x"⟩), ("b0", Outcome.raises ⟨"E2", "y"⟩)]
        = (DispatchResult.keyError : DispatchResult Nat)) ∧
      (fallback_method "size"
          [("b0", Outcome.raises ⟨"E1", "x"⟩), ("b0", Outcome.raises ⟨"E2", "y"⟩),
           ("b1", Outcome.raises ⟨"E3", "z"⟩)]
        = (DispatchResult.aggregate
            (concatenate_exceptions [(.str "b0", ⟨"E2", "y"⟩), (.str "b1", ⟨"E3", "z"⟩)])
              : DispatchResult Nat)) := by
  exact duplicate_identifier_failures "size" "b0" "b1" ⟨"E1", "x"⟩ ⟨"E2", "y"⟩ ⟨"E3", "z"⟩
    (by decide)

/-- C2: with migration mode on, when the primary backend's `open` finds
nothing for `name` (falsy result or an exception) and the next backend
exposing `open` returns a file, `open(name, "rb")` returns a detached
`ContentFile` with that backend's full content, and the one promotion made is
`__save_to_primary_backend(name, BytesIO(content))`.  The returned value does
not depend on the primary backend's `save` behaviour - a promotion failure is
only logged (the log output is exactly that of `__save_to_primary_backend`),
never raised and never recorded in the exceptions dict. -/
theorem migration_open_promotes_to_primary (s : FallbackStorage) (name c0 c1 : String)
    (f0 f1 : String → String → Outcome (Option FileObj))
    (rest : List (String × (String → String → Outcome (Option FileObj)))) (fo : FileObj)
    (hmig : s.in_data_migration = true)
    (hms : s.get_backend_open_methods = (c0, f0) :: (c1, f1) :: rest)
    (h0 : f0 name "rb" = Outcome.returns none ∨ ∃ e, f0 name "rb" = Outcome.raises e)
    (h1 : f1 name "rb" = Outcome.returns (some fo)) :
    s.facade_open name "rb"
      = ⟨DispatchResult.ok (some (ContentFile fo.content name)),
         [(name, BytesIo fo.content)],
         (s.save_to_primary_backend name (BytesIo fo.content)).2⟩ := by
  rcases h0 with h0 | ⟨e, h0⟩ <;>
    simp [FallbackStorage.facade_open, open_migration_loop, hmig, hms, h0, h1]

/-- C2 witness: the test-suite scenario - empty primary `b0`, secondary `b1`
holding `foo.txt` = `test-foo`, migration on. -/
theorem migration_open_promotes_witness :
    wStore.facade_open "foo.txt" "rb"
      = ⟨DispatchResult.ok (some (ContentFile "test-foo" "foo.txt")),
         [("foo.txt", BytesIo "test-foo")], []⟩ := by
  exact migration_open_promotes_to_primary wStore "foo.txt" "b0" "b1" wB0open wB1open []
    ⟨"test-foo", some "foo.txt"⟩ rfl rfl (Or.inl rfl) rfl

/-- A prefix of backends each lacking `url` or `exists`, or whose `exists`
returns false, is skipped by the non-migration `url` scan without touching the
exceptions dict. -/
theorem url_scan_skips (name : String) (l : List (String × Backend))
    (pre : List (String × Backend)) :
    ∀ exceptions : PyDict,
      (∀ p ∈ pre, p.2.url = none ∨ p.2.exists_ = none ∨
        ∃ g, p.2.exists_ = some g ∧ g name = Outcome.returns false) →
      url_scan name (pre ++ l) exceptions = url_scan name l exceptions := by
  induction pre with
  | nil => intro exceptions _; rfl
  | cons hd tl ih =>
      intro exceptions hpre
      obtain ⟨bc, bk⟩ := hd
      have hhd := hpre (bc, bk) (by simp)
      have htl := fun p hp => hpre p (List.mem_cons_of_mem _ hp)
      rcases hhd with h | h | ⟨g, hg, hgname⟩
      · have h' : bk.url = none := h
        cases he : bk.exists_ <;>
          · simp only [List.cons_append, url_scan, h', he, List.append_eq]
            exact ih exceptions htl
      · have h' : bk.exists_ = none := h
        cases hu : bk.url <;>
          · simp only [List.cons_append, url_scan, h', hu, List.append_eq]
            exact ih exceptions htl
      · have hg' : bk.exists_ = some g := hg
        cases hu : bk.url with
        | none =>
            cases he : bk.exists_ <;>
              · simp only [List.cons_append, url_scan, hu, he, List.append_eq]
                exact ih exceptions htl
        | some u =>
            simp only [List.cons_append, url_scan, hu, hg', hgname, List.append_eq]
            simpa using ih exceptions htl

/-- C6 counterexample: in `c6Store` (migration off), backend `b0` exposes both
`url` and `exists` but its `exists("x")` raises `OSError: boom`; the claim
says the scan skips `b0` and continues (which would return `b1`'s URL `u1`),
but the unguarded `backend.exists(name)` call lets the exception escape:
`url("x")` raises `OSError: boom`. -/
theorem url_exists_exception_propagates_concrete :
    c6Store.facade_url "x" = DispatchResult.raised ⟨"OSError", "boom"⟩ := by
  rfl

/-- C6 amended: in non-migration mode, a backend whose `exists(name)` returns
false is skipped with nothing recorded, but a backend (after any such skipped
prefix) whose `exists(name)` RAISES stops the scan and the exception
propagates to the caller unchanged. -/
theorem url_exists_exception_propagates (s : FallbackStorage) (name : String)
    (pre : List (String × Backend)) (backend_class : String) (backend : Backend)
    (rest : List (String × Backend)) (uFn : String → Outcome String)
    (eFn : String → Outcome Bool) (e : Exc)
    (hmig : s.in_data_migration = false)
    (hbs : s.get_backends = pre ++ (backend_class, backend) :: rest)
    (hpre : ∀ p ∈ pre, p.2.url = none ∨ p.2.exists_ = none ∨
      ∃ g, p.2.exists_ = some g ∧ g name = Outcome.returns false)
    (hu : backend.url = some uFn) (he : backend.exists_ = some eFn)
    (hraise : eFn name = Outcome.raises e) :
    s.facade_url name = DispatchResult.raised e := by
  have hscan : url_scan name s.get_backends [] = UrlScan.found (DispatchResult.raised e) := by
    rw [hbs, url_scan_skips name _ pre [] hpre]
    simp [url_scan, hu, he, hraise]
  simp [FallbackStorage.facade_url, hmig, hscan]

/-- C6 witness for the amended claim: in `c6StoreW` the first backend exposes
no methods (skipped), the second one's `exists` raises, and the third would
succeed; the caller sees the raised `OSError`. -/
theorem url_exists_exception_propagates_witness :
    c6StoreW.facade_url "x" = DispatchResult.raised ⟨"OSError", "boom"⟩ := by
  exact url_exists_exception_propagates c6StoreW "x" [("p0", emptyBackend)] "b0" c6B0
    [("b1", c6B1)] (fun _ => Outcome.returns "u0") (fun _ => Outcome.raises ⟨"OSError", "boom"⟩)
    ⟨"OSError", "boom"⟩ rfl rfl
    (by intro p hp; rw [List.mem_singleton] at hp; subst hp; exact Or.inl rfl)
    rfl rfl rfl

/-- C10: in non-migration mode, when the scan exhausts with zero recorded
failures, `url` instantiates the LAST configured backend and calls its `url`;
an `AttributeError` from that call is converted into the `No backend found
with the method url` error, while any other exception propagates to the
caller unchanged, outside the single/aggregate rule. -/
theorem terminal_url_fallback_conversion (s : FallbackStorage) (name last_class : String)
    (uFn : String → Outcome String)
    (hmig : s.in_data_migration = false)
    (hscan : url_scan name s.get_backends [] = UrlScan.exhausted [])
    (hlast : s.backend_classes.getLast? = some last_class)
    (hurl : (s.resolve last_class).url = some uFn) :
    s.facade_url name
      = (match uFn name with
         | Outcome.returns u => DispatchResult.ok u
         | Outcome.raises e =>
             if e.ty = "AttributeError" then DispatchResult.attributeError noUrlBackendMsg
             else DispatchResult.raised e) := by
  simp [FallbackStorage.facade_url, hmig, hscan, hlast, hurl]

/-- C10 witness: a single backend without `exists` (so the scan records
nothing), whose `url` raises `ValueError: boom`: the ValueError propagates
unchanged instead of being converted. -/
theorem terminal_url_fallback_conversion_witness :
    c10Store.facade_url "x" = DispatchResult.raised ⟨"ValueError", "boom"⟩ := by
  exact terminal_url_fallback_conversion c10Store "x" "b0" c10Url rfl rfl rfl rfl
